import Mathlib

/-!
Verification of the `rust_signals` library (`src/lib.rs`): a generation-tracked
mutable cell (`Signal`) and lazily recomputed memoized views (`Derived`).

Embedding conventions:
* `u32` generation counters become `Nat` with explicit `% 2^32` wherever the
  source uses `wrapping_add`; every counter the library constructs stays below
  `2^32`.
* `&mut self` methods become explicit state passing (`Signal T → ... → Signal T`);
  a `&self` method returns its observation and, being a shared borrow with no
  interior mutability in `Signal<T>` itself, leaves the receiver unchanged.
* The raw pointer held by `SignalRef` / `DerivedSignalRef` is modelled by
  passing the pointee's current state `w` explicitly to every `Derived`
  operation; the trait `SignalDeriveBase` becomes a bundle of access functions
  over that state.
* `Cell<Output>` only provides interior mutability and is modelled as its
  content; `Cell::set` through `Signal`'s `Deref` rewrites the `inner` field of
  the output `Signal` and touches nothing else (in particular not its
  generation), exactly as in the source.
-/

namespace RustSignals

/-- `u32::MAX + 1`: the modulus of the wrapping generation counter. -/
def u32Mod : Nat := 4294967296

variable {T A B O V W Wa Wb Va Vb : Type} {γ γa γb : Type}

/-- `Signal<T>`: owns a value `inner` and a `u32` generation counter. -/
structure Signal (T : Type) where
  inner : T
  generation : Nat

/-- `Signal::new(value)`: generation starts at 1. -/
def Signal.new (value : T) : Signal T :=
  { inner := value, generation := 1 }

/-- `Signal::flag_updated`: `self.generation = self.generation.wrapping_add(1)`. -/
def Signal.flag_updated (s : Signal T) : Signal T :=
  { s with generation := (s.generation + 1) % u32Mod }

/-- `Signal::set(value)`: `self.flag_updated(); self.inner = value;`. -/
def Signal.set (s : Signal T) (value : T) : Signal T :=
  let s' := s.flag_updated
  { s' with inner := value }

/-- `Signal::get(&self) -> &T`: read-only borrow of `inner`. -/
def Signal.get (s : Signal T) : T :=
  s.inner

/-- `Signal::get_mut(&mut self) -> &mut T`: bumps the generation first, then
hands out the mutable borrow. In state-passing form: the value readable through
the borrow at the moment it is granted, together with the post-call state. -/
def Signal.get_mut (s : Signal T) : T × Signal T :=
  let s' := s.flag_updated
  (s'.inner, s')

/-- `Signal::generation(&self) -> u32`. (`generation` names the field, so the
reader method gets the suffix `_read`.) -/
def Signal.generation_read (s : Signal T) : Nat :=
  s.generation

/-- `Deref for Signal`: `fn deref(&self) { self.get() }`. -/
def Signal.deref (s : Signal T) : T :=
  s.get

/-- A write through `DerefMut for Signal` (e.g. `*number += 1`): obtains the
borrow via `get_mut` (which bumps the generation) and stores `h` of the
borrowed value through it. -/
def Signal.modify (s : Signal T) (h : T → T) : Signal T :=
  let p := s.get_mut
  { p.2 with inner := h p.1 }

/-- The trait `SignalDeriveBase`, as a bundle of access functions over the
state `W` of the referenced object (the pointee of the source's raw pointer). -/
structure SignalDeriveBase (W γ V : Type) where
  compare_generation : W → γ → Bool
  current_generation : W → γ
  get : W → V

/-- `impl SignalDeriveBase for SignalRef<T>`: the marker is the signal's own
counter, `compare_generation` is `current_generation() == other`, and `get`
copies the signal's contents. -/
def signalRef (T : Type) : SignalDeriveBase (Signal T) Nat T where
  compare_generation w other := Signal.generation_read w == other
  current_generation w := Signal.generation_read w
  get w := Signal.get w

/-- `impl SignalDeriveBase for DerivedSignalRef<T>`: points at a `Derived`
view's output cell `Signal<Cell<T>>`; `get` is `sig.get().get()` (outer
`Signal::get`, then `Cell::get`), with `Cell` modelled as its content. -/
def derivedSignalRef (T : Type) : SignalDeriveBase (Signal T) Nat T where
  compare_generation w other := Signal.generation_read w == other
  current_generation w := Signal.generation_read w
  get w := Signal.get w

/-- `impl SignalDeriveBase for (A, B)`: the marker is the pair of markers,
compared member-wise with `&&`; the value is the pair of values. -/
def pairBase (ba : SignalDeriveBase Wa γa Va) (bb : SignalDeriveBase Wb γb Vb) :
    SignalDeriveBase (Wa × Wb) (γa × γb) (Va × Vb) where
  compare_generation w other :=
    ba.compare_generation w.1 other.1 && bb.compare_generation w.2 other.2
  current_generation w := (ba.current_generation w.1, bb.current_generation w.2)
  get w := (ba.get w.1, bb.get w.2)

/-- `Derived<Base, Output>` minus the stored base handle: the handle is a raw
pointer and is modelled by passing the pointee state to each operation. The
output cell is `Signal<Cell<Output>>` with `Cell` erased; `output_gen` is the
baseline generation marker; `function` is the boxed computation. -/
structure Derived (γ V O : Type) where
  output : Signal O
  output_gen : γ
  function : V → O

/-- `Derived::new(base, function)`: eagerly computes `function(base.get())`
into a fresh output cell and records `base.current_generation()` as baseline. -/
def Derived.new (b : SignalDeriveBase W γ V) (f : V → O) (w : W) : Derived γ V O :=
  { output := Signal.new (f (b.get w))
    output_gen := b.current_generation w
    function := f }

/-- `Derive::derive(&self, function)`: builds a `Derived` over the receiver's
derive base (here: the base bundle `b` and the current pointee state `w`). -/
def derive (b : SignalDeriveBase W γ V) (f : V → O) (w : W) : Derived γ V O :=
  Derived.new b f w

/-- `Derived::input_changed(&self)`: `!self.base.compare_generation(self.output_gen)`. -/
def Derived.input_changed (b : SignalDeriveBase W γ V) (d : Derived γ V O) (w : W) : Bool :=
  !(b.compare_generation w d.output_gen)

/-- `Derived::get(&self)`: if the input changed, `(*self.output).set(...)`
stores the recomputed value in the output cell — through `Deref`, i.e.
`Cell::set` behind a shared borrow, so neither the output signal's generation
nor `output_gen` changes (`&self` receiver). Then returns the cell's content.
State-passing form: the returned value together with the post-call view. -/
def Derived.get (b : SignalDeriveBase W γ V) (d : Derived γ V O) (w : W) :
    O × Derived γ V O :=
  if Derived.input_changed b d w then
    let d' : Derived γ V O := { d with output := { d.output with inner := d.function (b.get w) } }
    (Signal.get d'.output, d')
  else
    (Signal.get d.output, d)

/-- The number of times `Derived::get` invokes the stored `function` during one
call, read off the body of `get`: once when `input_changed()`, else zero. -/
def Derived.get_invocations (b : SignalDeriveBase W γ V) (d : Derived γ V O) (w : W) : Nat :=
  if Derived.input_changed b d w then 1 else 0

/-- `Derived::output_signal(&self)`. -/
def Derived.output_signal (d : Derived γ V O) : Signal O :=
  d.output

/-- The public operations on a single `Signal` that a caller can sequence:
the mutating ones (`set`, a `get_mut` borrow that may go unused, a write
through `DerefMut`) and the read-only ones (`get`, `generation()`, a read
through `Deref`). -/
inductive SigOp (T : Type) where
  | set (v : T)
  | get_mut
  | deref_write (h : T → T)
  | get
  | generation_read
  | deref_read

/-- Apply one operation to a signal, yielding the post-call state. The three
read operations take `&self` (a shared borrow, no interior mutability), so the
state passes through unchanged. -/
def Signal.applyOp (s : Signal T) : SigOp T → Signal T
  | .set v => s.set v
  | .get_mut => (s.get_mut).2
  | .deref_write h => s.modify h
  | .get => s
  | .generation_read => s
  | .deref_read => s

/-- Run a sequence of operations left to right. -/
def Signal.runOps (s : Signal T) : List (SigOp T) → Signal T
  | [] => s
  | op :: ops => Signal.runOps (s.applyOp op) ops

/-- How many times one operation bumps the generation counter: every mutating
access bumps exactly once, reads never do. -/
def SigOp.bumps : SigOp T → Nat
  | .set _ => 1
  | .get_mut => 1
  | .deref_write _ => 1
  | .get => 0
  | .generation_read => 0
  | .deref_read => 0

/-- Total generation bumps performed by a sequence of operations. -/
def SigOp.totalBumps (ops : List (SigOp T)) : Nat :=
  (ops.map SigOp.bumps).sum

/-! ### Helper lemmas about the wrapping generation counter -/

theorem u32Mod_pos : 0 < u32Mod := by norm_num [u32Mod]

theorem one_lt_u32Mod : 1 < u32Mod := by norm_num [u32Mod]

/-- A wrapped increment never fixes a counter that is in `u32` range. -/
theorem succ_mod_ne (g : Nat) (hg : g < u32Mod) : (g + 1) % u32Mod ≠ g := by
  have hM : 1 < u32Mod := one_lt_u32Mod
  rcases Nat.lt_or_ge (g + 1) u32Mod with h | h
  · rw [Nat.mod_eq_of_lt h]
    omega
  · have hgm : g + 1 = u32Mod := by omega
    rw [hgm, Nat.mod_self]
    omega

theorem applyOp_generation (s : Signal T) (op : SigOp T) (hs : s.generation < u32Mod) :
    (s.applyOp op).generation = (s.generation + op.bumps) % u32Mod := by
  cases op <;>
    simp [Signal.applyOp, Signal.set, Signal.get_mut, Signal.modify, Signal.flag_updated,
      SigOp.bumps, Nat.mod_eq_of_lt hs]

theorem applyOp_generation_lt (s : Signal T) (op : SigOp T) (hs : s.generation < u32Mod) :
    (s.applyOp op).generation < u32Mod := by
  rw [applyOp_generation s op hs]
  exact Nat.mod_lt _ u32Mod_pos

theorem runOps_generation (ops : List (SigOp T)) (s : Signal T) (hs : s.generation < u32Mod) :
    (s.runOps ops).generation = (s.generation + SigOp.totalBumps ops) % u32Mod := by
  induction ops generalizing s with
  | nil =>
    simp [Signal.runOps, SigOp.totalBumps, Nat.mod_eq_of_lt hs]
  | cons op ops ih =>
    rw [Signal.runOps, ih _ (applyOp_generation_lt s op hs), applyOp_generation s op hs]
    have : SigOp.totalBumps (op :: ops) = op.bumps + SigOp.totalBumps ops := by
      simp [SigOp.totalBumps]
    rw [this, Nat.mod_add_mod, Nat.add_assoc]

theorem applyOp_bumps_zero (s : Signal T) (op : SigOp T) (h : op.bumps = 0) :
    s.applyOp op = s := by
  cases op <;> simp_all [SigOp.bumps, Signal.applyOp]

theorem runOps_bumps_zero (ops : List (SigOp T)) (s : Signal T)
    (h : SigOp.totalBumps ops = 0) : s.runOps ops = s := by
  induction ops generalizing s with
  | nil => rfl
  | cons op ops ih =>
    have hsum : op.bumps + SigOp.totalBumps ops = 0 := by
      simpa [SigOp.totalBumps] using h
    rw [Signal.runOps, applyOp_bumps_zero s op (by omega)]
    exact ih s (by omega)

/-- After at least one `set v`, the stored value is `v`. -/
theorem runOps_replicate_set_inner (n : Nat) (v : T) (s : Signal T) :
    (s.runOps (List.replicate (n + 1) (SigOp.set v))).inner = v := by
  induction n generalizing s with
  | zero => rfl
  | succ n ih =>
    rw [List.replicate_succ, Signal.runOps]
    exact ih _

theorem totalBumps_replicate_set (n : Nat) (v : T) :
    SigOp.totalBumps (List.replicate n (SigOp.set v)) = n := by
  simp [SigOp.totalBumps, List.map_replicate, SigOp.bumps, List.sum_replicate]

/-! ### Claim theorems -/

/-- Claim C7: `Signal::new` initializes the generation counter to 1, and every
`set`, `get_mut`, and write through dereference bumps it by exactly 1 modulo
`2^32` (wrapping, total, no panic); `get_mut` bumps unconditionally, leaving
the stored value untouched even when the caller never writes. -/
theorem generation_counter_increments (v x : T) (s : Signal T) (h : T → T) :
    (Signal.new v).generation = 1 ∧
    (Signal.flag_updated s).generation = (s.generation + 1) % u32Mod ∧
    (Signal.set s x).generation = (s.generation + 1) % u32Mod ∧
    (Signal.get_mut s).2.generation = (s.generation + 1) % u32Mod ∧
    (Signal.get_mut s).2.inner = s.inner ∧
    (Signal.modify s h).generation = (s.generation + 1) % u32Mod :=
  ⟨rfl, rfl, rfl, rfl, rfl, rfl⟩

/-- Claim C8: the read-only operations `get()`, `generation()`, and read access
through dereference leave the signal's entire state (value and generation)
unchanged — they are `&self` methods on a `Signal` with no interior
mutability, so the state passes through the operation semantics untouched —
and they observe exactly the stored value resp. counter. -/
theorem reads_leave_signal_unchanged (s : Signal T) :
    Signal.applyOp s SigOp.get = s ∧
    Signal.applyOp s SigOp.generation_read = s ∧
    Signal.applyOp s SigOp.deref_read = s ∧
    Signal.get s = s.inner ∧
    Signal.deref s = Signal.get s ∧
    Signal.generation_read s = s.generation :=
  ⟨rfl, rfl, rfl, rfl, rfl, rfl⟩

/-- Claim C9: `input_changed()` returns `true` exactly when the source's
current generation marker differs from the stored baseline (for both a direct
`SignalRef` source and a `DerivedSignalRef` source), and the cached output is
valid — `get` would invoke the function zero times — exactly when the markers
are equal. `input_changed` is a pure observation: in the embedding it returns
only a `Bool` and produces no new state, mirroring its `&self` receiver that
touches neither the cache, the baseline, nor the source. -/
theorem input_changed_iff_generation_differs (d : Derived Nat V O) (w : Signal V) :
    (Derived.input_changed (signalRef V) d w = true ↔ w.generation ≠ d.output_gen) ∧
    (Derived.input_changed (signalRef V) d w = false ↔ w.generation = d.output_gen) ∧
    (Derived.get_invocations (signalRef V) d w = 0 ↔ w.generation = d.output_gen) ∧
    (Derived.input_changed (derivedSignalRef V) d w = true ↔ w.generation ≠ d.output_gen) := by
  simp [Derived.input_changed, Derived.get_invocations, signalRef, derivedSignalRef,
    Signal.generation_read]

/-- Claim C1, evaluated at the failing input. The claim says a stale `get()`
updates the stored baseline so that an immediately following `input_changed()`
returns `false`. The code recomputes and stores the result in the cache, but
`Derived::get` takes `&self` and never assigns `output_gen`, so the baseline
stays at 1 while the source's counter is 2 and `input_changed()` still
returns `true` right after the stale `get()`. -/
theorem get_leaves_baseline_stale :
    (Derived.get (signalRef Nat) (Derived.new (signalRef Nat) (fun x => x * 2) (Signal.new 1))
        (Signal.set (Signal.new 1) 2)).1 = 4 ∧
    ((Derived.get (signalRef Nat) (Derived.new (signalRef Nat) (fun x => x * 2) (Signal.new 1))
        (Signal.set (Signal.new 1) 2)).2).output_gen = 1 ∧
    (Signal.set (Signal.new (1 : Nat)) 2).generation = 2 ∧
    Derived.input_changed (signalRef Nat)
      ((Derived.get (signalRef Nat) (Derived.new (signalRef Nat) (fun x => x * 2) (Signal.new 1))
          (Signal.set (Signal.new 1) 2)).2)
      (Signal.set (Signal.new 1) 2) = true := by
  decide

/-- Claim C2, evaluated at the failing input. The claim says two consecutive
`get()` calls with no intervening source mutation invoke the function at most
once. With source `Signal::new(1)` mutated once to 2 before the pair of calls,
each of the two `get()` calls finds `input_changed()` true (the baseline is
never advanced) and recomputes: two invocations in total. -/
theorem second_get_recomputes_again :
    Derived.get_invocations (signalRef Nat)
        (Derived.new (signalRef Nat) (fun x => x * 2) (Signal.new 1))
        (Signal.set (Signal.new 1) 2)
      +
      Derived.get_invocations (signalRef Nat)
        ((Derived.get (signalRef Nat) (Derived.new (signalRef Nat) (fun x => x * 2) (Signal.new 1))
            (Signal.set (Signal.new 1) 2)).2)
        (Signal.set (Signal.new 1) 2)
      = 2 := by
  decide

/-- Claim C3, evaluated at the failing input. With `S = Signal::new(1)`,
`D1 = S.derive(|x| x * 2)`, `D2 = D1.derive(|x| x + 1)`, then `S.set(5)` and a
read of `D1` (which returns the fresh 10): the claim says reading stale `D1`
bumps its output-cell generation and a subsequent `D2.get()` returns
`g(f(5)) = 11`. In the code, `D1.get()` writes the cache via `Cell::set`
behind `Deref`, so `D1`'s output generation stays at 1, `D2` still compares
equal against its baseline 1, and `D2.get()` returns its own stale cache
`g(f(1)) = 3`. -/
theorem chained_derived_never_updates :
    ((Derived.get (signalRef Nat) (Derived.new (signalRef Nat) (fun x => x * 2) (Signal.new 1))
        (Signal.set (Signal.new 1) 5)).2).output.generation
      = (Derived.new (signalRef Nat) (fun x => x * 2) (Signal.new 1)).output.generation ∧
    (Derived.get (signalRef Nat) (Derived.new (signalRef Nat) (fun x => x * 2) (Signal.new 1))
        (Signal.set (Signal.new 1) 5)).1 = 10 ∧
    (Derived.get (derivedSignalRef Nat)
        (Derived.new (derivedSignalRef Nat) (fun x => x + 1)
          (Derived.new (signalRef Nat) (fun x => x * 2) (Signal.new 1)).output)
        ((Derived.get (signalRef Nat)
            (Derived.new (signalRef Nat) (fun x => x * 2) (Signal.new 1))
            (Signal.set (Signal.new 1) 5)).2).output).1 = 3 := by
  decide

/-- Claim C5: for every derivable source (any base whose generation comparison
accepts the marker it itself reports, as all three impls do) and function `f`,
`derive`/`Derived::new` eagerly seeds the cache with `f` of the current value
and records the source's current generation marker as the baseline, so a
`get()` immediately after construction returns `f(initial value)` and invokes
`f` zero further times. -/
theorem derive_eager_fresh (b : SignalDeriveBase W γ V) (f : V → O) (w : W)
    (hrefl : b.compare_generation w (b.current_generation w) = true) :
    (Derived.new b f w).output.inner = f (b.get w) ∧
    (Derived.new b f w).output_gen = b.current_generation w ∧
    Derived.get_invocations b (Derived.new b f w) w = 0 ∧
    (Derived.get b (Derived.new b f w) w).1 = f (b.get w) := by
  refine ⟨rfl, rfl, ?_, ?_⟩
  · simp [Derived.get_invocations, Derived.input_changed, Derived.new, hrefl]
  · simp [Derived.get, Derived.input_changed, Derived.new, hrefl, Signal.get, Signal.new]

/-- Witness for C5 at `Signal::new(1)` with `f = (· * 2)`. -/
theorem derive_eager_fresh_witness :
    (Derived.get (signalRef Nat) (Derived.new (signalRef Nat) (fun x => x * 2) (Signal.new 1))
        (Signal.new 1)).1 = (fun x => x * 2) ((signalRef Nat).get (Signal.new 1)) :=
  (derive_eager_fresh (signalRef Nat) (fun x => x * 2) (Signal.new 1) (by decide)).2.2.2

/-- Claim C6: a composite `(A, B)` source compares generation markers
member-wise with `&&`, so the pair is stale as soon as any one member changed;
for a `Derived` over a pair of signals, mutating only `A` (a `set` to `a'`)
makes the view stale and the recomputation reads the current tuple, producing
`f (current A, unchanged B)`. -/
theorem pair_memberwise_invalidation (sa : Signal A) (sb : Signal B)
    (f : A × B → O) (a' : A) (wa : Signal A) (wb : Signal B) (ga gb : Nat)
    (ha : sa.generation < u32Mod) :
    (pairBase (signalRef A) (signalRef B)).compare_generation (wa, wb) (ga, gb)
      = ((signalRef A).compare_generation wa ga && (signalRef B).compare_generation wb gb) ∧
    Derived.input_changed (pairBase (signalRef A) (signalRef B))
      (Derived.new (pairBase (signalRef A) (signalRef B)) f (sa, sb))
      (Signal.set sa a', sb) = true ∧
    (Derived.get (pairBase (signalRef A) (signalRef B))
      (Derived.new (pairBase (signalRef A) (signalRef B)) f (sa, sb))
      (Signal.set sa a', sb)).1 = f (a', sb.inner) := by
  have hne : (sa.generation + 1) % u32Mod ≠ sa.generation := succ_mod_ne _ ha
  refine ⟨rfl, ?_, ?_⟩
  · simp [Derived.input_changed, Derived.new, pairBase, signalRef, Signal.set,
      Signal.flag_updated, Signal.generation_read, hne]
  · simp [Derived.get, Derived.input_changed, Derived.new, pairBase, signalRef, Signal.set,
      Signal.flag_updated, Signal.generation_read, Signal.get, Signal.new, hne]

/-- Witness for C6 over `(Signal::new(1), Signal::new(10))` with
`f = (fun p => p.1 + p.2)`, mutating only the first member to 7. -/
theorem pair_memberwise_invalidation_witness :
    (pairBase (signalRef Nat) (signalRef Nat)).compare_generation
        (Signal.new 3, Signal.new 4) (1, 2)
      = ((signalRef Nat).compare_generation (Signal.new 3) 1 &&
          (signalRef Nat).compare_generation (Signal.new 4) 2) ∧
    Derived.input_changed (pairBase (signalRef Nat) (signalRef Nat))
      (Derived.new (pairBase (signalRef Nat) (signalRef Nat)) (fun p => p.1 + p.2)
        (Signal.new 1, Signal.new 10))
      (Signal.set (Signal.new 1) 7, Signal.new 10) = true ∧
    (Derived.get (pairBase (signalRef Nat) (signalRef Nat))
      (Derived.new (pairBase (signalRef Nat) (signalRef Nat)) (fun p => p.1 + p.2)
        (Signal.new 1, Signal.new 10))
      (Signal.set (Signal.new 1) 7, Signal.new 10)).1
      = (fun p => p.1 + p.2) (7, (Signal.new (10 : Nat)).inner) :=
  pair_memberwise_invalidation (Signal.new 1) (Signal.new 10) (fun p => p.1 + p.2) 7
    (Signal.new 3) (Signal.new 4) 1 2 (by decide)

/-- Claim C10: `flag_updated()` bumps the generation by 1 (wrapping) and leaves
the stored value unchanged; consequently any `Derived` view that is currently
fresh (its baseline equals the signal's counter) reports
`input_changed() = true` afterwards and recomputes on its next `get()` — the
recomputation applies the stored function to the identical value. -/
theorem flag_updated_forces_staleness (s : Signal T) (d : Derived Nat T O)
    (hfresh : d.output_gen = s.generation) (hlt : s.generation < u32Mod) :
    (Signal.flag_updated s).inner = s.inner ∧
    (Signal.flag_updated s).generation = (s.generation + 1) % u32Mod ∧
    Derived.input_changed (signalRef T) d s = false ∧
    Derived.input_changed (signalRef T) d (Signal.flag_updated s) = true ∧
    Derived.get_invocations (signalRef T) d (Signal.flag_updated s) = 1 ∧
    (Derived.get (signalRef T) d (Signal.flag_updated s)).1 = d.function s.inner := by
  have hne : (s.generation + 1) % u32Mod ≠ s.generation := succ_mod_ne _ hlt
  refine ⟨rfl, rfl, ?_, ?_, ?_, ?_⟩
  · simp [Derived.input_changed, signalRef, Signal.generation_read, hfresh]
  · simp [Derived.input_changed, signalRef, Signal.generation_read, Signal.flag_updated,
      hfresh, hne]
  · simp [Derived.get_invocations, Derived.input_changed, signalRef, Signal.generation_read,
      Signal.flag_updated, hfresh, hne]
  · simp [Derived.get, Derived.input_changed, signalRef, Signal.generation_read,
      Signal.flag_updated, Signal.get, hfresh, hne]

/-- Witness for C10 at `Signal::new(1)` and the freshly derived doubling view. -/
theorem flag_updated_forces_staleness_witness :
    (Signal.flag_updated (Signal.new (1 : Nat))).inner = (Signal.new (1 : Nat)).inner ∧
    (Signal.flag_updated (Signal.new (1 : Nat))).generation
      = ((Signal.new (1 : Nat)).generation + 1) % u32Mod ∧
    Derived.input_changed (signalRef Nat)
      (Derived.new (signalRef Nat) (fun x => x * 2) (Signal.new 1)) (Signal.new 1) = false ∧
    Derived.input_changed (signalRef Nat)
      (Derived.new (signalRef Nat) (fun x => x * 2) (Signal.new 1))
      (Signal.flag_updated (Signal.new 1)) = true ∧
    Derived.get_invocations (signalRef Nat)
      (Derived.new (signalRef Nat) (fun x => x * 2) (Signal.new 1))
      (Signal.flag_updated (Signal.new 1)) = 1 ∧
    (Derived.get (signalRef Nat)
      (Derived.new (signalRef Nat) (fun x => x * 2) (Signal.new 1))
      (Signal.flag_updated (Signal.new 1))).1
      = (Derived.new (signalRef Nat) (fun x => x * 2) (Signal.new 1)).function
          (Signal.new (1 : Nat)).inner :=
  flag_updated_forces_staleness (Signal.new 1)
    (Derived.new (signalRef Nat) (fun x => x * 2) (Signal.new 1)) (by decide) (by decide)

/-- A derived view over a signal whose counter equals the stored baseline is
classified fresh — wrongly so when the counter got there by wrapping — and
`get` returns the cached output without recomputing. -/
theorem get_returns_cache_of_generation_eq (d : Derived Nat V O) (w : Signal V)
    (hw : w.generation = d.output_gen) :
    (Derived.get (signalRef V) d w).1 = d.output.inner := by
  simp [Derived.get, Derived.input_changed, signalRef, Signal.generation_read, Signal.get, hw]

/-- Counterexample to claim C4 as stated: a sequence of exactly `2^32` calls to
`set` wraps the `u32` generation counter back to the derived view's baseline 1,
so the final `get()` wrongly classifies the view as fresh and returns the
stale cache `2` instead of `f(5) = 10`. -/
theorem wraparound_defeats_invalidation :
    (Derived.get (signalRef Nat) (Derived.new (signalRef Nat) (fun x => x * 2) (Signal.new 1))
        (Signal.runOps (Signal.new 1) (List.replicate 4294967296 (SigOp.set 5)))).1
      ≠ (fun x => x * 2)
          (Signal.runOps (Signal.new (1 : Nat)) (List.replicate 4294967296 (SigOp.set 5))).inner := by
  have hgen : (Signal.runOps (Signal.new (1 : Nat))
      (List.replicate 4294967296 (SigOp.set 5))).generation = 1 := by
    rw [runOps_generation _ _ (by norm_num [Signal.new, u32Mod]), totalBumps_replicate_set]
    norm_num [Signal.new, u32Mod]
  have hinner : (Signal.runOps (Signal.new (1 : Nat))
      (List.replicate 4294967296 (SigOp.set 5))).inner = 5 := by
    have h1 : (4294967296 : Nat) = 4294967295 + 1 := by norm_num
    rw [h1]
    exact runOps_replicate_set_inner 4294967295 5 (Signal.new 1)
  rw [get_returns_cache_of_generation_eq _ _ (by rw [hgen]; rfl), hinner]
  decide

/-- Claim C4 as amended: for every sequence of operations on the source signal
whose number of generation bumps is zero or not a multiple of `2^32` (in
particular every sequence of fewer than `2^32` mutations), the subsequent
`derived.get()` returns `f` of the signal's current value. -/
theorem get_tracks_mutations_without_wraparound (v₀ : T) (f : T → O)
    (ops : List (SigOp T))
    (h : SigOp.totalBumps ops % u32Mod ≠ 0 ∨ SigOp.totalBumps ops = 0) :
    (Derived.get (signalRef T) (Derived.new (signalRef T) f (Signal.new v₀))
        (Signal.runOps (Signal.new v₀) ops)).1
      = f (Signal.runOps (Signal.new v₀) ops).inner := by
  rcases h with h | h
  · have hng : (Signal.new v₀).generation = 1 := rfl
    have hg : (Signal.runOps (Signal.new v₀) ops).generation
        = (1 + SigOp.totalBumps ops) % u32Mod := by
      rw [runOps_generation _ _ (by norm_num [Signal.new, u32Mod]), hng]
    have hne1 : (1 + SigOp.totalBumps ops) % u32Mod ≠ 1 := by
      have h1 : (1 : Nat) % u32Mod = 1 := Nat.mod_eq_of_lt one_lt_u32Mod
      have hmod : (1 + SigOp.totalBumps ops) % u32Mod
          = (1 + SigOp.totalBumps ops % u32Mod) % u32Mod := by
        conv_lhs => rw [Nat.add_mod, h1]
      rw [hmod]
      have hr : SigOp.totalBumps ops % u32Mod < u32Mod := Nat.mod_lt _ u32Mod_pos
      rcases Nat.lt_or_ge (1 + SigOp.totalBumps ops % u32Mod) u32Mod with h2 | h2
      · rw [Nat.mod_eq_of_lt h2]
        omega
      · have h3 : 1 + SigOp.totalBumps ops % u32Mod = u32Mod := by omega
        rw [h3, Nat.mod_self]
        have := one_lt_u32Mod
        omega
    have hif : Derived.input_changed (signalRef T) (Derived.new (signalRef T) f (Signal.new v₀))
        (Signal.runOps (Signal.new v₀) ops) = true := by
      simp [Derived.input_changed, signalRef, Signal.generation_read, Derived.new,
        hng, hg, hne1]
    simp only [Derived.get]
    rw [hif]
    simp [Derived.new, signalRef, Signal.get]
  · rw [runOps_bumps_zero ops _ h]
    simp [Derived.get, Derived.input_changed, Derived.new, signalRef, Signal.generation_read,
      Signal.get, Signal.new]

/-- Witness for the amended C4 at the single-mutation sequence `[set 3]`. -/
theorem get_tracks_mutations_witness :
    (Derived.get (signalRef Nat) (Derived.new (signalRef Nat) (fun x => x * 2) (Signal.new 1))
        (Signal.runOps (Signal.new 1) [SigOp.set 3])).1
      = (fun x => x * 2) (Signal.runOps (Signal.new (1 : Nat)) [SigOp.set 3]).inner :=
  get_tracks_mutations_without_wraparound 1 (fun x => x * 2) [SigOp.set 3] (Or.inl (by decide))

end RustSignals
